import Mathlib

/-!
# Verification of the SMAW recommendation engine (`src/weldingKnowledge.js`)

This file shallowly embeds the recommendation core of the repository:
the `electrodeSize` amperage table of the `weldingKnowledge` object and its
`getRecommendations` method (source lines 367-496).  The visualization layer
(Three.js scene, GUI, DOM) is presentation plumbing and is not modelled.

Modelling notes, each traceable to the source:

* JS objects used as string-keyed tables become association lists
  (`List (String × _)`) with a first-match lookup (`lookupStr`), which is the
  semantics of JS property access over these literal objects.
* `getRecommendations` mutates a `recommendations` record field by field.
  Each field's successive values are modelled as staged `let` bindings; the
  branch conditions are copied verbatim from the source, so every field's
  final value is the value the JS record holds on `return`.
* Amperage arithmetic: the source computes with JS binary64 doubles
  (`(max - min) * 0.4`, `* 0.6`, `max -= 5`, `max -= 3`, `Math.round`).  We
  compute in `ℚ`.  For every entry of the table min and max are integers
  ≤ 250, so the only inexact double steps are the multiplications by 0.4/0.6;
  the exact rational value has fractional part a multiple of 1/5 (never 1/2)
  and the double differs from it by far less than 1/5, so `Math.round` of the
  double equals `round` of the rational, and the formatted output strings
  agree exactly.  `Math.round` rounds halves toward +∞, which is Mathlib's
  `round`; ties never occur here anyway.
* `parseInt` (radix 10, no sign or whitespace in any table string) is
  modelled by `parseIntJS`, the value of the leading digit run.
  `String.prototype.split("-")` is modelled by `splitDash`.
* A parse failure inside the guarded amperage branch would produce a
  "NaN"-bearing string in JS; it is modelled as the range being absent.
  `amperage_strings_wellFormed` below proves every string of the shipped
  table parses, so the two models agree on this knowledge base.
* JS property access `obj[key]` on an object literal yields the own entry,
  or an inherited `Object.prototype` member (a truthy function, or
  `Object.prototype` itself for `__proto__`) when `key` names one, or
  `undefined`.  An inherited member passes the line-400 truthiness guard
  and the method then throws a TypeError (`undefined[electrode]` at line
  400 when `electrodeSize` is prototype-named, `.split` called on a
  non-string at line 401 when `electrode` is).  These are the only two
  expressions of the method that can throw; every other step compares
  strings or writes constants.  The full semantics including the throw is
  `objGet` / `baseAmperageJS` / `getRecommendationsJS`; the total
  `lookupStr` / `baseAmperage` / `getRecommendations` model own-property
  access only and agree with the full semantics exactly when neither
  `electrode` nor `electrodeSize` names a prototype member
  (`baseAmperageJS_no_throw`).
* `getRecommendations` also reads `this.electrodes[electrode]`,
  `this.positions[position]`, `this.metalThickness[metalThickness]` and
  `this.jointTypes[jointType]` into local constants, but never uses them:
  every decision is a direct string comparison.  Those descriptive tables are
  therefore irrelevant to the engine's output and are not embedded.
-/

/-- JS `String.prototype.split("-")` on the character list: cut at every
dash, keeping empty pieces, as `"75-130A".split("-")` does. -/
def splitDashAux : List Char → List Char → List (List Char)
  | [], acc => [acc.reverse]
  | c :: rest, acc =>
    if c = '-' then acc.reverse :: splitDashAux rest []
    else splitDashAux rest (c :: acc)

/-- JS `s.split("-")`. -/
def splitDash (s : String) : List String :=
  (splitDashAux s.data []).map (fun cs => String.mk cs)

/-- JS `parseInt(s)` for the strings occurring in the amperage table: the
value of the leading run of decimal digits, `none` (JS `NaN`) if there is
none.  (The table strings carry no sign, whitespace or `0x` prefix, so the
remaining `parseInt` behaviour is irrelevant here.) -/
def parseIntJS (s : String) : Option Nat :=
  let ds := s.data.takeWhile (fun c => c.isDigit)
  if ds = [] then none
  else some (ds.foldl (fun n c => 10 * n + (c.toNat - 48)) 0)

/-- First-match lookup in an association list: JS *own*-property access
over the object literals of the knowledge base (`none` is JS `undefined`).
This ignores members inherited from `Object.prototype`; `objGet` below is
the full `obj[key]` semantics. -/
def lookupStr {α : Type} (k : String) : List (String × α) → Option α
  | [] => none
  | (k2, v) :: rest => if k = k2 then some v else lookupStr k rest

/-- The property names every JS object literal inherits from
`Object.prototype` (ES2023 §20.1.3 plus the Annex B accessors).  Each of
them reads back a truthy value on the knowledge-base objects: a function,
or `Object.prototype` itself for `__proto__`. -/
def protoMembers : List String :=
  ["constructor", "hasOwnProperty", "isPrototypeOf", "propertyIsEnumerable",
   "toLocaleString", "toString", "valueOf", "__proto__", "__defineGetter__",
   "__defineSetter__", "__lookupGetter__", "__lookupSetter__"]

/-- Outcome of a JS property read `obj[key]` on a knowledge-base object
literal: an own entry, a truthy member inherited from `Object.prototype`
(never a string, so `.split` on it is `undefined`), or `undefined`. -/
inductive JsPropValue (α : Type) where
  | own : α → JsPropValue α
  | protoMember : JsPropValue α
  | undef : JsPropValue α

/-- Full JS semantics of `obj[key]` on the knowledge-base object
literals. -/
def objGet {α : Type} (k : String) (l : List (String × α)) : JsPropValue α :=
  match lookupStr k l with
  | some v => JsPropValue.own v
  | none => if k ∈ protoMembers then JsPropValue.protoMember else JsPropValue.undef

/-- One entry of the `electrodeSize` table: an electrode-classification →
amperage-range-string mapping plus the qualitative descriptors. -/
structure ElectrodeSizeSpec where
  amperage : List (String × String)
  control : String
  deposition : String
  bestFor : String

/-- The `electrodeSize` table of `weldingKnowledge` (source lines 71-108),
verbatim. -/
def electrodeSize : List (String × ElectrodeSizeSpec) :=
  [ ("3/32\"",
     ⟨[("E6010", "40-80A"), ("E6011", "40-80A"), ("E6013", "40-80A"),
       ("E7018", "65-110A"), ("E7024", "100-145A")],
      "Excellent", "Low", "Thin metal, out-of-position, root passes"⟩),
    ("1/8\"",
     ⟨[("E6010", "75-130A"), ("E6011", "75-130A"), ("E6013", "70-110A"),
       ("E7018", "100-150A"), ("E7024", "140-190A")],
      "Good", "Medium", "General purpose, most common size"⟩),
    ("5/32\"",
     ⟨[("E6010", "110-170A"), ("E6011", "100-160A"), ("E6013", "110-160A"),
       ("E7018", "140-215A"), ("E7024", "180-250A")],
      "Fair", "High", "Thicker metal, flat position, filling passes"⟩) ]

/-- The engine's input (the destructured `inputs` argument of
`getRecommendations`).  The source defaults the four observation fields to
"Moderate"/"Moderate"/"Adequate"/"Stable" when the caller omits them; callers
of this embedding pass all ten fields explicitly. -/
structure ParameterSnapshot where
  electrode : String
  electrodeSize : String
  position : String
  metalThickness : String
  jointType : String
  machineType : String
  observedPuddle : String
  observedSpread : String
  observedTieIn : String
  observedStability : String

/-- The engine's output (the `recommendations` record of the source,
initialized to empty strings / empty lists). -/
structure RecommendationResult where
  amperage : String
  arcGap : String
  rodAngle : String
  travelSpeed : String
  motionPattern : List String
  adjustments : List String
deriving DecidableEq

/-- Thickness narrowing of the base amperage range (source lines 404-408):
Thin keeps min and pulls max down to `min + (max - min) * 0.4`; Thick pushes
min up to `min + (max - min) * 0.6` and keeps max; anything else (Medium
included) changes nothing. -/
def thicknessAdjust (metalThickness : String) (mn mx : ℚ) : ℚ × ℚ :=
  if metalThickness = "Thin (<1/8\")" then (mn, mn + (mx - mn) * 0.4)
  else if metalThickness = "Thick (>3/16\")" then (mn + (mx - mn) * 0.6, mx)
  else (mn, mx)

/-- Position trim of the (already narrowed) max (source lines 411-415):
Vertical Up subtracts 5, Overhead subtracts 3, anything else is unchanged. -/
def positionTrim (position : String) (mx : ℚ) : ℚ :=
  if position = "Vertical Up" then mx - 5
  else if position = "Overhead" then mx - 3
  else mx

/-- The parse of source line 401: `split('-').map(a => parseInt(a))`
destructured into `[min, max]`; `none` when either piece is `NaN`
(unreachable on the shipped table, `amperage_strings_wellFormed`). -/
def parseAmpRange (s : String) : Option (Nat × Nat) :=
  match (splitDash s).map parseIntJS with
  | some mn :: some mx :: _ => some (mn, mx)
  | _ => none

/-- The guarded base lookup of source lines 400-401 over *own* properties:
`sizeData && sizeData.amperage[electrode]` then the line-401 parse.  All
table strings are non-empty, so JS truthiness of an own looked-up string is
exactly lookup success.  This totalization is exact unless `size` or `el`
names an `Object.prototype` member; `baseAmperageJS` below keeps the
TypeError path those keys trigger. -/
def baseAmperage (size el : String) : Option (Nat × Nat) :=
  match lookupStr size electrodeSize with
  | none => none
  | some spec =>
    match lookupStr el spec.amperage with
    | none => none
    | some s => parseAmpRange s

/-- The rounded amperage bounds after thickness narrowing (first) and the
position trim (second), i.e. `Math.round(min)` and `Math.round(max)` of
source line 417. -/
def amperageBounds (size el thickness pos : String) : Option (ℤ × ℤ) :=
  (baseAmperage size el).map (fun p =>
    (round (thicknessAdjust thickness (p.1 : ℚ) (p.2 : ℚ)).1,
     round (positionTrim pos (thicknessAdjust thickness (p.1 : ℚ) (p.2 : ℚ)).2)))

/-- The formatted amperage field: `` `${Math.round(min)}-${Math.round(max)}A` ``,
or the initial `""` when the guard of line 400 fails. -/
def amperageString (inputs : ParameterSnapshot) : String :=
  match amperageBounds inputs.electrodeSize inputs.electrode
      inputs.metalThickness inputs.position with
  | none => ""
  | some ab => toString ab.1 ++ "-" ++ toString ab.2 ++ "A"

/-- `weldingKnowledge.getRecommendations` (source lines 367-496).  The
source mutates one `recommendations` record in four blocks (amperage, rod
angle / position, electrode, observations); here each field's successive
values are staged `let`s with the branch conditions copied verbatim, and
`push` becomes `++`. -/
def getRecommendations (inputs : ParameterSnapshot) : RecommendationResult :=
  let amperage := amperageString inputs
  -- Rod angle from the joint type (source lines 421-429).
  let rodAngle0 : String :=
    if inputs.jointType = "Butt" then
      if inputs.position = "Flat" then "Perpendicular"
      else if inputs.position = "Vertical Up" then "45° angled up slightly"
      else if inputs.position = "Overhead" then "Nearly perpendicular"
      else "45°"
    else if inputs.jointType = "Lap" ∨ inputs.jointType = "T" then "45° into corner"
    else if inputs.jointType = "Corner" then "Bisect the corner angle"
    else ""
  -- Position-specific block (source lines 432-446): travel speed, the rod
  -- angle overwrite, and the Vertical Up motion-pattern seeding.
  let travelSpeed : String :=
    if inputs.position = "Vertical Down" then "Fast"
    else if inputs.position = "Vertical Up" then "Medium-slow, steady"
    else if inputs.position = "Horizontal" then "Medium-fast to prevent sagging"
    else ""
  let rodAngle : String :=
    if inputs.position = "Vertical Down" then "Angle up slightly to hold puddle"
    else if inputs.position = "Horizontal" then "Angle up slightly to control puddle"
    else rodAngle0
  let motionPattern0 : List String :=
    if inputs.position = "Vertical Up" then
      if inputs.electrode = "E7018" then ["Side-to-side"]
      else if inputs.electrode = "E6010" ∨ inputs.electrode = "E6011" then
        ["Step/Whip", "Circular"]
      else []
    else []
  -- Electrode-specific block (source lines 449-468): arc gap, the guarded
  -- motion-pattern fills (E7024's push is unguarded), and E7018's adjustment.
  let arcGap : String :=
    if inputs.electrode = "E6010" ∨ inputs.electrode = "E6011" then "Medium"
    else if inputs.electrode = "E6013" then "Short to medium"
    else if inputs.electrode = "E7018" then "Short"
    else if inputs.electrode = "E7024" then "Short"
    else ""
  let motionPattern : List String :=
    if inputs.electrode = "E6010" ∨ inputs.electrode = "E6011" then
      if motionPattern0.isEmpty then motionPattern0 ++ ["Circular", "Zigzag", "Whip/Step"]
      else motionPattern0
    else if inputs.electrode = "E6013" then
      if motionPattern0.isEmpty then motionPattern0 ++ ["Straight", "Slight side-to-side"]
      else motionPattern0
    else if inputs.electrode = "E7018" then
      if motionPattern0.isEmpty then motionPattern0 ++ ["Straight", "Side-to-side"]
      else motionPattern0
    else if inputs.electrode = "E7024" then
      motionPattern0 ++ ["Straight"]
    else motionPattern0
  let adjustments0 : List String :=
    if inputs.electrode = "E7018" then ["Keep arc in puddle, don\x27t let slag get ahead"]
    else []
  -- Observation block (source lines 471-493), appended in source order:
  -- puddle fluidity, spread, edge tie-in, arc stability.
  let adjustments1 : List String :=
    if inputs.observedPuddle = "Stiff" then
      adjustments0 ++ ["Increase heat: try higher amperage or slower travel"]
    else if inputs.observedPuddle = "VeryFluid" then
      adjustments0 ++ ["Reduce heat: try lower amperage or faster travel"]
    else adjustments0
  let adjustments2 : List String :=
    if inputs.observedSpread = "Narrow" then
      adjustments1 ++ ["Widen puddle: slow down slightly or increase amperage"]
    else if inputs.observedSpread = "Wide" then
      adjustments1 ++ ["Narrow puddle: speed up slightly or decrease amperage"]
    else adjustments1
  let adjustments3 : List String :=
    if inputs.observedTieIn = "Poor" then
      adjustments2 ++ ["Improve edge tie-in: direct more heat to edges, adjust angle"]
    else adjustments2
  let adjustments : List String :=
    if inputs.observedStability = "Unstable" then
      if inputs.electrode = "E6010" ∧ inputs.machineType = "AC" then
        adjustments3 ++ ["E6010 requires DC+, switch to E6011 for AC"]
      else adjustments3 ++ ["Maintain consistent arc length, check machine settings"]
    else adjustments3
  ⟨amperage, arcGap, rodAngle, travelSpeed, motionPattern, adjustments⟩

/-- Source lines 400-401 under full JS property-access semantics,
including the two throwing sites.  With `electrodeSize` naming a prototype
member, `sizeData` is a truthy inherited member, so the guard keeps
evaluating, `sizeData.amperage` is `undefined`, and `undefined[electrode]`
throws at line 400.  With a genuine size and `electrode` naming a prototype
member, `sizeData.amperage[electrode]` is a truthy inherited member, the
guard passes, and `.split` (absent on a non-string) is called at line 401,
throwing.  An `undefined` read keeps the guard falsy, as in
`baseAmperage`. -/
def baseAmperageJS (size el : String) : Except String (Option (Nat × Nat)) :=
  match objGet size electrodeSize with
  | JsPropValue.undef => Except.ok none
  | JsPropValue.protoMember =>
      Except.error "TypeError: cannot read properties of undefined"
  | JsPropValue.own spec =>
    match objGet el spec.amperage with
    | JsPropValue.undef => Except.ok none
    | JsPropValue.protoMember =>
        Except.error "TypeError: split is not a function"
    | JsPropValue.own s => Except.ok (parseAmpRange s)

/-- `getRecommendations` under full JS semantics: the amperage step of
lines 400-401 is the only part of the method that can throw (every other
step compares strings against literals or writes constants, and the other
table reads of lines 393-397 are one-level accesses on defined objects
whose results are never used).  On a throw the method produces no result;
otherwise the remaining body is exactly the computation of
`getRecommendations`, whose amperage step agrees with the non-throwing
value by `baseAmperageJS_no_throw`. -/
def getRecommendationsJS (inputs : ParameterSnapshot) : Except String RecommendationResult :=
  match baseAmperageJS inputs.electrodeSize inputs.electrode with
  | Except.error e => Except.error e
  | Except.ok _ => Except.ok (getRecommendations inputs)

/-- Every amperage string of the shipped table splits into two parseable
pieces, so the JS `NaN` path is unreachable on this knowledge base. -/
theorem amperage_strings_wellFormed :
    electrodeSize.all (fun p => p.2.amperage.all (fun q =>
      match (splitDash q.2).map parseIntJS with
      | some _ :: some _ :: _ => true
      | _ => false)) = true := by
  decide

/-! ## Supporting lemmas -/

/-- `round` on `ℚ` is monotone (used to carry `min ≤ max` through
`Math.round`). -/
lemma round_mono_q {x y : ℚ} (h : x ≤ y) : round x ≤ round y := by
  rw [round_eq, round_eq]
  exact Int.floor_mono (by linarith)

/-- A successful `lookupStr` returns one of the list's values. -/
lemma lookupStr_mem {α : Type} (k : String) (v : α) :
    ∀ l : List (String × α), lookupStr k l = some v → v ∈ l.map Prod.snd := by
  intro l
  induction l with
  | nil => intro h; exact Option.noConfusion h
  | cons p t ih =>
    obtain ⟨k2, v2⟩ := p
    intro h
    simp only [lookupStr] at h
    by_cases hk : k = k2
    · rw [if_pos hk] at h
      injection h with h
      subst h
      simp
    · rw [if_neg hk] at h
      simpa using Or.inr (ih h)

/-- Transport of the slack bound through an `Option (Nat × Nat)` equation
whose left side evaluates to a literal pair. -/
lemma slack_of_eq {a b mn mx : Nat} (h : (some (a, b) : Option (Nat × Nat)) = some (mn, mx))
    (hab : 2 * a + 25 ≤ 2 * b) : (mn : ℚ) + 25 / 2 ≤ (mx : ℚ) := by
  injection h with h
  injection h with h1 h2
  subst h1
  subst h2
  have hq : ((2 * a + 25 : Nat) : ℚ) ≤ ((2 * b : Nat) : ℚ) := by exact_mod_cast hab
  push_cast at hq
  linarith

/-- Every range of the shipped amperage table has width at least 25/2, the
slack needed so the Vertical Up trim of 5 cannot push max below min even
after Thin/Thick narrowing shrinks the width to 0.4 of itself. -/
lemma baseAmperage_slack (size el : String) (mn mx : Nat)
    (h : baseAmperage size el = some (mn, mx)) : (mn : ℚ) + 25 / 2 ≤ (mx : ℚ) := by
  unfold baseAmperage at h
  split at h
  · exact Option.noConfusion h
  · rename_i spec hs
    split at h
    · exact Option.noConfusion h
    · rename_i s ha
      have hspec := lookupStr_mem size spec electrodeSize hs
      simp only [electrodeSize, List.map_cons, List.map_nil, List.mem_cons,
        List.not_mem_nil, or_false] at hspec
      rcases hspec with h1 | h1 | h1 <;> subst h1 <;>
        · have hstr := lookupStr_mem el s _ ha
          simp only [List.map_cons, List.map_nil, List.mem_cons,
            List.not_mem_nil, or_false] at hstr
          rcases hstr with h2 | h2 | h2 | h2 | h2 <;> subst h2 <;>
            exact slack_of_eq h (by decide)

/-- After thickness narrowing and the position trim, the rounded bounds stay
ordered as long as the base range has the table's slack. -/
lemma bounds_le (mn mx : Nat) (hslack : (mn : ℚ) + 25 / 2 ≤ (mx : ℚ)) (t p : String) :
    round (thicknessAdjust t (mn : ℚ) (mx : ℚ)).1 ≤
      round (positionTrim p (thicknessAdjust t (mn : ℚ) (mx : ℚ)).2) := by
  unfold thicknessAdjust positionTrim
  split_ifs <;> exact round_mono_q (by push_cast; nlinarith [hslack])

/-- An electrode key outside the table's five classifications makes the base
amperage lookup fail for every size. -/
lemma baseAmperage_unknown (size el : String)
    (h1 : el ≠ "E6010") (h2 : el ≠ "E6011") (h3 : el ≠ "E6013")
    (h4 : el ≠ "E7018") (h5 : el ≠ "E7024") :
    baseAmperage size el = none := by
  unfold baseAmperage
  cases hs : lookupStr size electrodeSize with
  | none => rfl
  | some spec =>
    have hspec := lookupStr_mem size spec electrodeSize hs
    simp only [electrodeSize, List.map_cons, List.map_nil, List.mem_cons,
      List.not_mem_nil, or_false] at hspec
    rcases hspec with h | h | h <;> subst h <;>
      simp [lookupStr, h1, h2, h3, h4, h5]

/-- The 1/8-inch E6010 row, evaluated. -/
lemma baseAmperage_E6010_eighth : baseAmperage "1/8\"" "E6010" = some (75, 130) := rfl

/-- For keys that do not name an `Object.prototype` member, the full
property-access semantics degenerates to own-property lookup. -/
lemma objGet_eq_of_not_proto {α : Type} (k : String) (l : List (String × α))
    (hk : k ∉ protoMembers) :
    objGet k l = (match lookupStr k l with
      | some v => JsPropValue.own v
      | none => JsPropValue.undef) := by
  unfold objGet
  cases lookupStr k l with
  | some v => rfl
  | none => simp [hk]

/-- When neither key names an `Object.prototype` member, the amperage step
cannot throw and computes exactly the totalized `baseAmperage`. -/
lemma baseAmperageJS_no_throw (size el : String)
    (hs : size ∉ protoMembers) (he : el ∉ protoMembers) :
    baseAmperageJS size el = Except.ok (baseAmperage size el) := by
  unfold baseAmperageJS baseAmperage
  rw [objGet_eq_of_not_proto size electrodeSize hs]
  cases lookupStr size electrodeSize with
  | none => rfl
  | some spec =>
    dsimp only
    rw [objGet_eq_of_not_proto el spec.amperage he]
    cases lookupStr el spec.amperage with
    | none => rfl
    | some s => rfl

/-! ## Claim theorems -/

/-- C1: for the snapshot electrode "E6010", size 1/8", position Flat,
thickness Medium, joint Butt, machine DC+, observations at their defaults,
`getRecommendations` returns amperage "75-130A", rod angle "Perpendicular",
arc gap "Medium", motion pattern exactly Circular/Zigzag/Whip-Step, no
adjustments (and no travel speed, which that position leaves unset). -/
theorem c1_flat_butt_default_scenario :
    getRecommendations ⟨"E6010", "1/8\"", "Flat", "Medium (1/8\"-3/16\")", "Butt",
        "DC+", "Moderate", "Moderate", "Adequate", "Stable"⟩ =
      ⟨"75-130A", "Medium", "Perpendicular", "",
        ["Circular", "Zigzag", "Whip/Step"], []⟩ := by
  have ha : amperageString ⟨"E6010", "1/8\"", "Flat", "Medium (1/8\"-3/16\")", "Butt",
      "DC+", "Moderate", "Moderate", "Adequate", "Stable"⟩ = "75-130A" := by
    simp [amperageString, amperageBounds, baseAmperage_E6010_eighth,
      thicknessAdjust, positionTrim]
    decide
  simp only [getRecommendations, ha]
  decide

/-- C2 counterexample: with joint type "Lap" the position is NOT ignored:
at position "Vertical Down" the position-specific override replaces
"45° into corner", so the claim as stated fails at this input. -/
theorem c2_lap_vertical_down_counterexample :
    (getRecommendations ⟨"E6010", "1/8\"", "Vertical Down", "Medium (1/8\"-3/16\")",
        "Lap", "DC+", "Moderate", "Moderate", "Adequate", "Stable"⟩).rodAngle ≠
      "45° into corner" := by
  decide

/-- C2 amended: for joint type "Lap" or "T" the rod angle is "45° into
corner" for every position other than "Vertical Down" and "Horizontal"
(those two positions override the joint-derived angle). -/
theorem c2_lap_t_rod_angle_amended (p : ParameterSnapshot)
    (hj : p.jointType = "Lap" ∨ p.jointType = "T")
    (h1 : p.position ≠ "Vertical Down") (h2 : p.position ≠ "Horizontal") :
    (getRecommendations p).rodAngle = "45° into corner" := by
  rcases hj with hj | hj <;> simp [getRecommendations, hj, h1, h2]

/-- Witness for the amended C2 at a concrete Lap/Flat snapshot. -/
theorem c2_lap_t_rod_angle_amended_witness :
    (("Lap" : String) = "Lap" ∨ ("Lap" : String) = "T") ∧
    ("Flat" : String) ≠ "Vertical Down" ∧ ("Flat" : String) ≠ "Horizontal" ∧
    (getRecommendations ⟨"E6010", "1/8\"", "Flat", "Medium (1/8\"-3/16\")", "Lap",
        "DC+", "Moderate", "Moderate", "Adequate", "Stable"⟩).rodAngle =
      "45° into corner" :=
  ⟨Or.inl rfl, by decide, by decide,
    c2_lap_t_rod_angle_amended _ (Or.inl rfl) (by decide) (by decide)⟩

/-- C3: whenever the (electrode, size) pair is present in the amperage
table, the rounded bounds after thickness narrowing and the position trim
satisfy min ≤ max, for every thickness and position string. -/
theorem c3_amperage_min_le_max (size el thickness pos : String) (a b : ℤ)
    (h : amperageBounds size el thickness pos = some (a, b)) : a ≤ b := by
  unfold amperageBounds at h
  cases hb : baseAmperage size el with
  | none => rw [hb] at h; exact Option.noConfusion h
  | some q =>
    rw [hb] at h
    simp only [Option.map_some'] at h
    obtain ⟨mn, mx⟩ := q
    have hslack := baseAmperage_slack size el mn mx hb
    injection h with h
    injection h with h1 h2
    subst h1
    subst h2
    exact bounds_le mn mx hslack thickness pos

/-- Witness for C3 at the 1/8" E6010 row with Medium thickness, Flat. -/
theorem c3_amperage_min_le_max_witness :
    amperageBounds "1/8\"" "E6010" "Medium (1/8\"-3/16\")" "Flat" = some (75, 130) ∧
    (75 : ℤ) ≤ 130 :=
  ⟨by simp [amperageBounds, baseAmperage_E6010_eighth, thicknessAdjust, positionTrim],
   c3_amperage_min_le_max "1/8\"" "E6010" "Medium (1/8\"-3/16\")" "Flat" 75 130
     (by simp [amperageBounds, baseAmperage_E6010_eighth, thicknessAdjust, positionTrim])⟩

/-- C4: Thin narrowing keeps min and strictly lowers max to
min + 0.4·(max−min); Thick narrowing keeps max and strictly raises min to
min + 0.6·(max−min); Medium leaves both bounds unchanged (whenever
max > min). -/
theorem c4_thickness_narrowing (mn mx : ℚ) (h : mn < mx) :
    (thicknessAdjust "Thin (<1/8\")" mn mx).1 = mn ∧
    (thicknessAdjust "Thin (<1/8\")" mn mx).2 < mx ∧
    (thicknessAdjust "Thin (<1/8\")" mn mx).2 = mn + 0.4 * (mx - mn) ∧
    mn < (thicknessAdjust "Thick (>3/16\")" mn mx).1 ∧
    (thicknessAdjust "Thick (>3/16\")" mn mx).2 = mx ∧
    (thicknessAdjust "Thick (>3/16\")" mn mx).1 = mn + 0.6 * (mx - mn) ∧
    thicknessAdjust "Medium (1/8\"-3/16\")" mn mx = (mn, mx) := by
  refine ⟨by simp [thicknessAdjust], ?_, by simp [thicknessAdjust]; ring, ?_,
    by simp [thicknessAdjust], by simp [thicknessAdjust]; ring, by simp [thicknessAdjust]⟩
  · simp [thicknessAdjust]
    nlinarith [h]
  · simp [thicknessAdjust]
    nlinarith [h]

/-- Witness for C4 at min 0, max 10. -/
theorem c4_thickness_narrowing_witness :
    (0 : ℚ) < 10 ∧
    ((thicknessAdjust "Thin (<1/8\")" 0 10).1 = 0 ∧
     (thicknessAdjust "Thin (<1/8\")" 0 10).2 < 10 ∧
     (thicknessAdjust "Thin (<1/8\")" 0 10).2 = 0 + 0.4 * (10 - 0) ∧
     (0 : ℚ) < (thicknessAdjust "Thick (>3/16\")" 0 10).1 ∧
     (thicknessAdjust "Thick (>3/16\")" 0 10).2 = 10 ∧
     (thicknessAdjust "Thick (>3/16\")" 0 10).1 = 0 + 0.6 * (10 - 0) ∧
     thicknessAdjust "Medium (1/8\"-3/16\")" 0 10 = (0, 10)) :=
  ⟨by decide, c4_thickness_narrowing 0 10 (by decide)⟩

/-- C5: the Vertical Up / Overhead trims subtract exactly 5 / 3 from the
max bound, and for every pair present in the table the bounds returned by
the amperage step are the rounded thickness-narrowed bounds with the trim
applied to the already-narrowed max (narrowing first, trim second). -/
theorem c5_position_trims_after_thickness (size el t : String) (mn mx : Nat)
    (h : baseAmperage size el = some (mn, mx)) :
    (∀ b : ℚ, positionTrim "Vertical Up" b = b - 5) ∧
    (∀ b : ℚ, positionTrim "Overhead" b = b - 3) ∧
    amperageBounds size el t "Vertical Up" =
      some (round (thicknessAdjust t (mn : ℚ) (mx : ℚ)).1,
            round ((thicknessAdjust t (mn : ℚ) (mx : ℚ)).2 - 5)) ∧
    amperageBounds size el t "Overhead" =
      some (round (thicknessAdjust t (mn : ℚ) (mx : ℚ)).1,
            round ((thicknessAdjust t (mn : ℚ) (mx : ℚ)).2 - 3)) := by
  refine ⟨fun b => by simp [positionTrim], fun b => by simp [positionTrim], ?_, ?_⟩ <;>
    simp [amperageBounds, h, positionTrim]

/-- Witness for C5 at the 1/8" E6010 row with Medium thickness. -/
theorem c5_position_trims_after_thickness_witness :
    baseAmperage "1/8\"" "E6010" = some (75, 130) ∧
    ((∀ b : ℚ, positionTrim "Vertical Up" b = b - 5) ∧
     (∀ b : ℚ, positionTrim "Overhead" b = b - 3) ∧
     amperageBounds "1/8\"" "E6010" "Medium (1/8\"-3/16\")" "Vertical Up" =
       some (round (thicknessAdjust "Medium (1/8\"-3/16\")" ((75 : Nat) : ℚ) ((130 : Nat) : ℚ)).1,
             round ((thicknessAdjust "Medium (1/8\"-3/16\")" ((75 : Nat) : ℚ) ((130 : Nat) : ℚ)).2 - 5)) ∧
     amperageBounds "1/8\"" "E6010" "Medium (1/8\"-3/16\")" "Overhead" =
       some (round (thicknessAdjust "Medium (1/8\"-3/16\")" ((75 : Nat) : ℚ) ((130 : Nat) : ℚ)).1,
             round ((thicknessAdjust "Medium (1/8\"-3/16\")" ((75 : Nat) : ℚ) ((130 : Nat) : ℚ)).2 - 3))) :=
  ⟨rfl, c5_position_trims_after_thickness "1/8\"" "E6010" "Medium (1/8\"-3/16\")" 75 130 rfl⟩

/-- C6: position "Vertical Down" forces rod angle "Angle up slightly to
hold puddle" and position "Horizontal" forces "Angle up slightly to control
puddle", for every snapshot, replacing any joint-derived rod angle. -/
theorem c6_position_rod_angle_override (p : ParameterSnapshot) :
    (p.position = "Vertical Down" →
      (getRecommendations p).rodAngle = "Angle up slightly to hold puddle") ∧
    (p.position = "Horizontal" →
      (getRecommendations p).rodAngle = "Angle up slightly to control puddle") := by
  constructor <;> intro h <;> simp [getRecommendations, h]

/-- Witness for C6 at concrete Vertical Down and Horizontal snapshots with
a Lap joint (whose joint-derived angle is discarded). -/
theorem c6_position_rod_angle_override_witness :
    (getRecommendations ⟨"E6010", "1/8\"", "Vertical Down", "Medium (1/8\"-3/16\")",
        "Lap", "DC+", "Moderate", "Moderate", "Adequate", "Stable"⟩).rodAngle =
      "Angle up slightly to hold puddle" ∧
    (getRecommendations ⟨"E6010", "1/8\"", "Horizontal", "Medium (1/8\"-3/16\")",
        "Lap", "DC+", "Moderate", "Moderate", "Adequate", "Stable"⟩).rodAngle =
      "Angle up slightly to control puddle" :=
  ⟨(c6_position_rod_angle_override _).1 rfl, (c6_position_rod_angle_override _).2 rfl⟩

/-- C7: for every snapshot with position "Vertical Up" and electrode
"E7018" the motion pattern is exactly ["Side-to-side"]: the seeding step
contributes it and the electrode step adds nothing since the list is
already non-empty. -/
theorem c7_vertical_up_e7018_motion (p : ParameterSnapshot)
    (h1 : p.position = "Vertical Up") (h2 : p.electrode = "E7018") :
    (getRecommendations p).motionPattern = ["Side-to-side"] := by
  simp [getRecommendations, h1, h2]

/-- Witness for C7 at a concrete Vertical Up / E7018 snapshot. -/
theorem c7_vertical_up_e7018_motion_witness :
    (getRecommendations ⟨"E7018", "1/8\"", "Vertical Up", "Medium (1/8\"-3/16\")",
        "Butt", "DC+", "Moderate", "Moderate", "Adequate", "Stable"⟩).motionPattern =
      ["Side-to-side"] :=
  c7_vertical_up_e7018_motion _ rfl rfl

/-- C8: with electrode "E6010", machine "AC" and the four observations
Stiff/Narrow/Poor/Unstable on the otherwise-default snapshot, the
adjustments are exactly four messages in the order heat, spread, tie-in,
stability, ending with the E6010-on-AC warning. -/
theorem c8_adjustment_order :
    (getRecommendations ⟨"E6010", "1/8\"", "Flat", "Medium (1/8\"-3/16\")", "Butt",
        "AC", "Stiff", "Narrow", "Poor", "Unstable"⟩).adjustments =
      ["Increase heat: try higher amperage or slower travel",
       "Widen puddle: slow down slightly or increase amperage",
       "Improve edge tie-in: direct more heat to edges, adjust angle",
       "E6010 requires DC+, switch to E6011 for AC"] := by
  decide

/-- C9 counterexample: the claim's "never raises an error for any
combination of keys, known or unknown" fails: the unknown electrode key
"toString" names an inherited `Object.prototype` member, so the line-400
truthiness guard passes and the method throws a TypeError at line 401
instead of returning a RecommendationResult. -/
theorem c9_prototype_key_counterexample :
    getRecommendationsJS ⟨"toString", "1/8\"", "Flat", "Medium (1/8\"-3/16\")", "Butt",
        "DC+", "Moderate", "Moderate", "Adequate", "Stable"⟩ =
      Except.error "TypeError: split is not a function" := rfl

/-- C9 amended: `getRecommendations` raises no error for any combination
of electrode, electrodeSize, position, metalThickness, and jointType keys,
known or unknown, provided neither electrode nor electrodeSize names an
`Object.prototype` member (such keys pass the line-400 truthiness guard
via the inherited member and throw a TypeError); a RecommendationResult is
returned, and an unknown electrode key (e.g. "E9999") leaves the
electrode-dependent fields unset (empty amperage, empty arc gap, empty
motion pattern). -/
theorem c9_fail_soft_amended (p : ParameterSnapshot)
    (hs : p.electrodeSize ∉ protoMembers) (he : p.electrode ∉ protoMembers) :
    getRecommendationsJS p = Except.ok (getRecommendations p) ∧
    (p.electrode ∉ (["E6010", "E6011", "E6013", "E7018", "E7024"] : List String) →
      (getRecommendations p).amperage = "" ∧ (getRecommendations p).arcGap = "" ∧
      (getRecommendations p).motionPattern = []) := by
  constructor
  · unfold getRecommendationsJS
    rw [baseAmperageJS_no_throw p.electrodeSize p.electrode hs he]
  · intro h
    simp only [List.mem_cons, List.not_mem_nil, or_false] at h
    push_neg at h
    obtain ⟨h1, h2, h3, h4, h5⟩ := h
    refine ⟨?_, ?_, ?_⟩
    · simp [getRecommendations, amperageString, amperageBounds,
        baseAmperage_unknown p.electrodeSize p.electrode h1 h2 h3 h4 h5]
    · simp [getRecommendations, h1, h2, h3, h4, h5]
    · simp [getRecommendations, h1, h2, h3, h4, h5]

/-- Witness for the amended C9 at the unknown, non-prototype electrode
key "E9999". -/
theorem c9_fail_soft_amended_witness :
    ("1/8\"" : String) ∉ protoMembers ∧ ("E9999" : String) ∉ protoMembers ∧
    (getRecommendationsJS ⟨"E9999", "1/8\"", "Flat", "Medium (1/8\"-3/16\")", "Butt",
        "DC+", "Moderate", "Moderate", "Adequate", "Stable"⟩ =
      Except.ok (getRecommendations ⟨"E9999", "1/8\"", "Flat", "Medium (1/8\"-3/16\")",
        "Butt", "DC+", "Moderate", "Moderate", "Adequate", "Stable"⟩) ∧
     (("E9999" : String) ∉ (["E6010", "E6011", "E6013", "E7018", "E7024"] : List String) →
       (getRecommendations ⟨"E9999", "1/8\"", "Flat", "Medium (1/8\"-3/16\")", "Butt",
         "DC+", "Moderate", "Moderate", "Adequate", "Stable"⟩).amperage = "" ∧
       (getRecommendations ⟨"E9999", "1/8\"", "Flat", "Medium (1/8\"-3/16\")", "Butt",
         "DC+", "Moderate", "Moderate", "Adequate", "Stable"⟩).arcGap = "" ∧
       (getRecommendations ⟨"E9999", "1/8\"", "Flat", "Medium (1/8\"-3/16\")", "Butt",
         "DC+", "Moderate", "Moderate", "Adequate", "Stable"⟩).motionPattern = [])) :=
  ⟨by decide, by decide, c9_fail_soft_amended _ (by decide) (by decide)⟩

/-- C10: for every snapshot with electrode "E7024" the motion pattern is
exactly ["Straight"]: the Vertical Up seeding never fires for E7024, so its
unguarded push always lands on an empty list. -/
theorem c10_e7024_motion_straight (p : ParameterSnapshot)
    (h : p.electrode = "E7024") :
    (getRecommendations p).motionPattern = ["Straight"] := by
  simp [getRecommendations, h]

/-- Witness for C10 at a concrete Vertical Up / E7024 snapshot. -/
theorem c10_e7024_motion_straight_witness :
    (getRecommendations ⟨"E7024", "1/8\"", "Vertical Up", "Medium (1/8\"-3/16\")",
        "Butt", "DC+", "Moderate", "Moderate", "Adequate", "Stable"⟩).motionPattern =
      ["Straight"] :=
  c10_e7024_motion_straight _ rfl
